import Mathlib

/-!
Verification of the reference-extraction engine of the bionic repository
(src/bionic/code_references.py), a shallow embedding of `get_code_context`
and `get_referenced_objects` together with theorems about the claims of
the specification.

The embedding mirrors the Python source line by line:
- Python values are modelled by `PyVal`; the Python singleton `None` is the
  constructor `PyVal.none`, which the walker also uses as its empty
  top-of-stack marker, exactly as the source does (`tos = None`).
- Python dicts keyed by strings are association lists with first-match
  lookup and in-place update (`dlookup`, `dinsert`, `ddelete`).
- Effects of the surrounding runtime (`getattr`, `importlib.import_module`)
  are a parameter `World`; a failed `getattr` is `Option.none`, and a module
  load distinguishes success, `ImportError` (caught by the inner
  `try` of the source) and any other exception (which reaches the outer
  handler).
- Exceptions are values of `PyExc`; the per-instruction `try/except` of the
  source becomes the `step` function, which turns a failing dispatch into a
  recorded diagnostic (`warnings.warn` in the source) and continues.
-/

namespace Bionic

/-- Python runtime values, as far as the walker can observe them.
`PyVal.none` is the Python singleton `None`; `obj` stands for any other
opaque object (module, class, function, instance) identified by a tag. -/
inductive PyVal where
  | none : PyVal
  | bool (b : Bool) : PyVal
  | int (n : Int) : PyVal
  | str (s : String) : PyVal
  | obj (tag : Nat) : PyVal
deriving DecidableEq, Repr

/-- Python truthiness of a value, as used by the source in the conditions
`op.opname == "DELETE_FAST" and tos` and `op.opname == "STORE_FAST" and tos`:
`None`, `False`, `0` and the empty string are falsy; bare objects are truthy. -/
def PyVal.truthy : PyVal → Bool
  | .none => false
  | .bool b => b
  | .int n => n != 0
  | .str s => s ≠ ""
  | .obj _ => true

/-- A Python dict keyed by strings: first-match lookup. -/
def dlookup (d : List (String × PyVal)) (k : String) : Option PyVal :=
  match d with
  | [] => Option.none
  | (k1, v) :: rest => if k1 = k then some v else dlookup rest k

/-- Dict update `d[k] = v`: replaces the first binding of `k` in place, or
appends a new binding at the end, matching insertion-ordered Python dicts. -/
def dinsert (d : List (String × PyVal)) (k : String) (v : PyVal) :
    List (String × PyVal) :=
  match d with
  | [] => [(k, v)]
  | (k1, v1) :: rest =>
      if k1 = k then (k, v) :: rest else (k1, v1) :: dinsert rest k v

/-- Dict deletion `del d[k]`: `Option.none` models the `KeyError` raised
when the key is absent. -/
def ddelete (d : List (String × PyVal)) (k : String) :
    Option (List (String × PyVal)) :=
  match d with
  | [] => Option.none
  | (k1, v1) :: rest =>
      if k1 = k then some rest
      else (ddelete rest k).map fun r => (k1, v1) :: r

/-- Opcode categories distinguished by `get_referenced_objects`; every opcode
it does not name falls into `other` (the final `else` branch of the source). -/
inductive Opname where
  | LOAD_GLOBAL
  | LOAD_NAME
  | LOAD_DEREF
  | LOAD_CLOSURE
  | IMPORT_NAME
  | LOAD_METHOD
  | LOAD_ATTR
  | IMPORT_FROM
  | DELETE_FAST
  | STORE_FAST
  | LOAD_FAST
  | other (name : String)
deriving DecidableEq, Repr

/-- One bytecode instruction as `dis.get_instructions` yields it: opcode
name, argument value (a name, for the opcodes the walker inspects), and the
optional `starts_line` marker. -/
structure Instr where
  opname : Opname
  argval : String
  starts_line : Option Nat
deriving DecidableEq, Repr

/-- A code object: its instruction stream plus the identity fields the
diagnostic message of the source interpolates. -/
structure PyCode where
  instructions : List Instr
  co_filename : String
  co_name : String
deriving DecidableEq, Repr

/-- The exceptions a single dispatch can raise: a missing dict key
(`context.cells[...]`, `del context.varnames[...]`), a failing `getattr`,
or a non-ImportError exception escaping `importlib.import_module`. -/
inductive PyExc where
  | keyError (k : String)
  | attributeError (a : String)
  | importException (m : String)
deriving DecidableEq, Repr

/-- Outcome of `importlib.import_module(name)`: a module value, an
`ImportError` (caught by the inner handler of the source), or any other
exception (which propagates to the per-instruction handler). -/
inductive ImportOutcome where
  | ok (v : PyVal)
  | importError
  | otherError
deriving DecidableEq, Repr

/-- The ambient Python runtime the walker consults: attribute lookup
(`Option.none` models a raising `getattr`) and module import. -/
structure World where
  getattr : PyVal → String → Option PyVal
  importMod : String → ImportOutcome

/-- The `CodeContext` record built by `get_code_context`: globals, cells and
varnames, each a dict from names to values. -/
structure CodeContext where
  globals : List (String × PyVal)
  cells : List (String × PyVal)
  varnames : List (String × PyVal)
deriving DecidableEq, Repr

/-- One recorded diagnostic, standing for the `warnings.warn` call of the
per-instruction exception handler: the code identity, the last known line,
and the caught exception. -/
structure Diag where
  filename : String
  codename : String
  lineno : Option Nat
  exc : PyExc
deriving DecidableEq, Repr

/-- The mutable state of one walk: the top-of-stack register `tos`
(`PyVal.none` when empty, as in the source), the last seen line number, the
accumulated reference list `refs`, the context (whose `varnames` dict the
walker mutates), and the emitted diagnostics. -/
structure WalkState where
  tos : PyVal
  lineno : Option Nat
  refs : List PyVal
  ctx : CodeContext
  diags : List Diag
deriving DecidableEq, Repr

/-- The nested helper `set_tos` of the source: commit the current `tos` to
`refs` when it is not `None`, then load the new value into `tos`. -/
def set_tos (t : PyVal) (s : WalkState) : WalkState :=
  { s with
    refs := if s.tos = PyVal.none then s.refs else s.refs ++ [s.tos],
    tos := t }

/-- The final `else` branch of the dispatch: for any other instruction,
commit a pending `tos` and clear it. -/
def otherDefault (s : WalkState) : WalkState :=
  if s.tos = PyVal.none then s
  else { s with refs := s.refs ++ [s.tos], tos := PyVal.none }

/-- Line tracking of the source: when `starts_line` is present it replaces
`lineno`, otherwise the previous value is retained. -/
def updLine (sl : Option Nat) (s : WalkState) : WalkState :=
  match sl with
  | some n => { s with lineno := some n }
  | Option.none => s

/-- The dispatch of one instruction, the `if/elif/else` chain of
`get_referenced_objects` lines 75-106, without the surrounding exception
handler.  An `Except.error` is an exception reaching the per-instruction
handler.  Note the faithful details: `DELETE_FAST` and `STORE_FAST` test the
truthiness of `tos` and otherwise fall through to the default branch, a
string `tos` is extended by concatenation whether it arose as a fallback
name or as a resolved string value, and `LOAD_FAST` of an unbound name also
falls to the default branch. -/
def dispatch (w : World) (opname : Opname) (argval : String) (s : WalkState) :
    Except PyExc WalkState :=
  match opname with
  | .LOAD_GLOBAL | .LOAD_NAME =>
      match dlookup s.ctx.globals argval with
      | some v => .ok (set_tos v s)
      | Option.none => .ok (set_tos (.str argval) s)
  | .LOAD_DEREF | .LOAD_CLOSURE =>
      match dlookup s.ctx.cells argval with
      | some v => .ok (set_tos v s)
      | Option.none => .error (.keyError argval)
  | .IMPORT_NAME =>
      match w.importMod argval with
      | .ok v => .ok (set_tos v s)
      | .importError => .ok (set_tos (.str argval) s)
      | .otherError => .error (.importException argval)
  | .LOAD_METHOD | .LOAD_ATTR | .IMPORT_FROM =>
      match s.tos with
      | .none => .ok { s with refs := s.refs ++ [.str argval] }
      | .str t => .ok { s with tos := .str (t ++ "." ++ argval) }
      | v =>
          match w.getattr v argval with
          | some r => .ok { s with tos := r }
          | Option.none => .error (.attributeError argval)
  | .DELETE_FAST =>
      if s.tos.truthy then
        match ddelete s.ctx.varnames argval with
        | some d =>
            .ok { s with ctx := { s.ctx with varnames := d }, tos := PyVal.none }
        | Option.none => .error (.keyError argval)
      else .ok (otherDefault s)
  | .STORE_FAST =>
      if s.tos.truthy then
        .ok { s with
              ctx := { s.ctx with varnames := dinsert s.ctx.varnames argval s.tos },
              tos := PyVal.none }
      else .ok (otherDefault s)
  | .LOAD_FAST =>
      match dlookup s.ctx.varnames argval with
      | some v => .ok (set_tos v s)
      | Option.none => .ok (otherDefault s)
  | .other _ => .ok (otherDefault s)

/-- One loop iteration of `get_referenced_objects`: update the line marker,
dispatch, and on an exception record one diagnostic (the `warnings.warn`
of the handler) and carry on with the state as it was at the raise point. -/
def step (w : World) (cd : PyCode) (s : WalkState) (op : Instr) : WalkState :=
  match dispatch w op.opname op.argval (updLine op.starts_line s) with
  | .ok s2 => s2
  | .error e =>
      { updLine op.starts_line s with
        diags := (updLine op.starts_line s).diags ++
          [⟨cd.co_filename, cd.co_name, (updLine op.starts_line s).lineno, e⟩] }

/-- Initial walker state: empty register, no line seen, no references, the
given context, no diagnostics. -/
def initState (ctx : CodeContext) : WalkState :=
  { tos := PyVal.none, lineno := Option.none, refs := [], ctx := ctx, diags := [] }

/-- The whole walk: fold `step` over the instruction stream. -/
def runWalk (w : World) (cd : PyCode) (ctx : CodeContext) : WalkState :=
  cd.instructions.foldl (step w cd) (initState ctx)

/-- The source function `get_referenced_objects`: it returns `refs` of the
final state.  Note that, as in the source, a value still pending in `tos`
after the last instruction is not appended. -/
def get_referenced_objects (w : World) (cd : PyCode) (ctx : CodeContext) :
    List PyVal :=
  (runWalk w cd ctx).refs

/-- Spec-comparison definition, following the words of specification §4.2:
after the last instruction, if `topOfStack != Empty`, commit it to the
output.  Used to compare the specified final commit with the source. -/
def specFinalCommit (s : WalkState) : List PyVal :=
  if s.tos = PyVal.none then s.refs else s.refs ++ [s.tos]

/-- A callable as `get_code_context` consumes it: cell-variable names,
free-variable names, the closure (`Option.none` is a `__closure__` of
`None`, each cell modelled by its `cell_contents`), the global namespace,
and bound-method data (`inspect.ismethod` and `__self__`). -/
structure PyFunc where
  co_cellvars : List String
  co_freevars : List String
  closure : Option (List PyVal)
  globals : List (String × PyVal)
  is_method : Bool
  self_val : PyVal
deriving DecidableEq, Repr

/-- The exceptions `get_code_context` can raise: the failing
`assert len(code.co_freevars) == len(func.__closure__)`, and the
`TypeError` of `len(None)` when `co_freevars` is non-empty but
`__closure__` is `None`. -/
inductive CtxError where
  | assertionError
  | typeError
deriving DecidableEq, Repr

/-- The cells dict seeded from `co_cellvars`: each cell variable maps to its
own name. -/
def seedCells (cellvars : List String) : List (String × PyVal) :=
  cellvars.foldl (fun d v => dinsert d v (.str v)) []

/-- The source function `get_code_context`: seed `cells` from `co_cellvars`,
then when `co_freevars` is non-empty assert the closure length and update
`cells` with the zip of free-variable names and closure cell contents;
`varnames` is `{"self": receiver}` for a bound method, else empty. -/
def get_code_context (f : PyFunc) : Except CtxError CodeContext :=
  let cells0 := seedCells f.co_cellvars
  let varnames : List (String × PyVal) :=
    if f.is_method then [("self", f.self_val)] else []
  if f.co_freevars.isEmpty then
    .ok { globals := f.globals, cells := cells0, varnames := varnames }
  else
    match f.closure with
    | Option.none => .error .typeError
    | some cl =>
        if f.co_freevars.length = cl.length then
          .ok { globals := f.globals,
                cells := (f.co_freevars.zip cl).foldl
                  (fun d p => dinsert d p.1 p.2) cells0,
                varnames := varnames }
        else .error .assertionError

/-! Concrete runtimes, code objects and contexts used to exercise the
embedding on explicit inputs. -/

/-- A runtime in which every attribute lookup raises and every module import
fails with `ImportError`. -/
def noMagicWorld : World :=
  { getattr := fun _ _ => Option.none, importMod := fun _ => .importError }

/-- A runtime in which every attribute lookup succeeds and returns the
object tagged 7. -/
def lookupWorld : World :=
  { getattr := fun _ _ => some (.obj 7), importMod := fun _ => .importError }

/-- The empty context. -/
def emptyCtx : CodeContext := ⟨[], [], []⟩

/-- A one-instruction stream whose only instruction reads an unbound cell
variable, so its dispatch raises `KeyError`. -/
def c1wCode : PyCode := ⟨[⟨.LOAD_DEREF, "x", Option.none⟩], "w.py", "g"⟩

/-- Stream: load global `n`, then an attribute `a`, then an unrelated
committing instruction. -/
def c2Code : PyCode :=
  ⟨[⟨.LOAD_GLOBAL, "n", Option.none⟩, ⟨.LOAD_ATTR, "a", Option.none⟩,
    ⟨.other "RETURN_VALUE", "", Option.none⟩], "f.py", "f"⟩

/-- A context whose global `n` is bound to the concrete string value `m`. -/
def c2Ctx : CodeContext := ⟨[("n", .str "m")], [], []⟩

/-- A stream whose final instruction is a resolving load of global `n`. -/
def c3Code : PyCode := ⟨[⟨.LOAD_GLOBAL, "n", Option.none⟩], "f.py", "f"⟩

/-- A context binding global `n` to the integer 42. -/
def c3Ctx : CodeContext := ⟨[("n", .int 42)], [], []⟩

/-- Stream: load global `n` (an object), then an attribute `a` at line 5
(whose lookup will raise), then an unrelated committing instruction. -/
def c4Code : PyCode :=
  ⟨[⟨.LOAD_GLOBAL, "n", Option.none⟩, ⟨.LOAD_ATTR, "a", some 5⟩,
    ⟨.other "RETURN_VALUE", "", Option.none⟩], "f.py", "f"⟩

/-- A context binding global `n` to an opaque object. -/
def c4Ctx : CodeContext := ⟨[("n", .obj 0)], [], []⟩

/-- A walker state holding the object tagged 0 in its register. -/
def c4wState : WalkState :=
  { tos := .obj 0, lineno := Option.none, refs := [], ctx := emptyCtx, diags := [] }

/-- Stream: load global `n`, then store it into local `x`. -/
def c5Code : PyCode :=
  ⟨[⟨.LOAD_GLOBAL, "n", Option.none⟩, ⟨.STORE_FAST, "x", Option.none⟩], "f.py", "f"⟩

/-- A context binding global `n` to the falsy integer 0. -/
def c5Ctx : CodeContext := ⟨[("n", .int 0)], [], []⟩

/-- A walker state holding the truthy integer 5 in its register. -/
def c5wTruthy : WalkState :=
  { tos := .int 5, lineno := Option.none, refs := [], ctx := emptyCtx, diags := [] }

/-- A walker state holding the falsy integer 0 in its register. -/
def c5wFalsy : WalkState :=
  { tos := .int 0, lineno := Option.none, refs := [], ctx := emptyCtx, diags := [] }

/-- A callable with one internal capture, two external captures, and a
closure of matching length. -/
def c6FuncOk : PyFunc :=
  ⟨["c"], ["u", "v"], some [.int 1, .int 2], [("g", .int 9)], false, .none⟩

/-- A callable whose two external-capture names face a one-cell closure. -/
def c6FuncBad : PyFunc :=
  ⟨[], ["u", "v"], some [.int 1], [], false, .none⟩

/-- A small context for the determinism witness. -/
def c8Ctx : CodeContext := ⟨[("n", .int 1)], [("c", .str "c")], []⟩

/-- A small code object for the determinism witness. -/
def c8Code : PyCode :=
  ⟨[⟨.LOAD_GLOBAL, "n", Option.none⟩, ⟨.other "RETURN_VALUE", "", Option.none⟩],
   "f.py", "f"⟩

/-- A small callable for the determinism witness. -/
def c8Func : PyFunc := ⟨[], ["u"], some [.int 3], [("g", .int 9)], true, .obj 1⟩

/-- Stream: load global `n`, then an attribute `a`, with no instruction
after the attribute load. -/
def c9Code : PyCode :=
  ⟨[⟨.LOAD_GLOBAL, "n", Option.none⟩, ⟨.LOAD_ATTR, "a", Option.none⟩], "f.py", "f"⟩

/-- A context whose global `n` is bound to the concrete string value `m`. -/
def c9Ctx : CodeContext := ⟨[("n", .str "m")], [], []⟩

/-- A context binding global `n` to Python `None`. -/
def c10Ctx : CodeContext := ⟨[("n", PyVal.none)], [], []⟩

/-- A context binding the captured cell variable `n` to Python `None`. -/
def c10CellCtx : CodeContext := ⟨[], [("n", PyVal.none)], []⟩

/-- A context binding the local variable `n` to Python `None`. -/
def c10LocalCtx : CodeContext := ⟨[], [], [("n", PyVal.none)]⟩

/-- Stream: load global `n` (bound to `None`), then an attribute `a`. -/
def c10Code : PyCode :=
  ⟨[⟨.LOAD_GLOBAL, "n", Option.none⟩, ⟨.LOAD_ATTR, "a", Option.none⟩], "f.py", "f"⟩

/-! Helper lemmas about the walker. -/

/-- Line tracking never changes the context. -/
theorem updLine_ctx (sl : Option Nat) (s : WalkState) : (updLine sl s).ctx = s.ctx := by
  unfold updLine; cases sl <;> rfl

/-- Line tracking never changes the accumulated references. -/
theorem updLine_refs (sl : Option Nat) (s : WalkState) : (updLine sl s).refs = s.refs := by
  unfold updLine; cases sl <;> rfl

/-- Line tracking never changes the register. -/
theorem updLine_tos (sl : Option Nat) (s : WalkState) : (updLine sl s).tos = s.tos := by
  unfold updLine; cases sl <;> rfl

/-- Line tracking never changes the diagnostics. -/
theorem updLine_diags (sl : Option Nat) (s : WalkState) : (updLine sl s).diags = s.diags := by
  unfold updLine; cases sl <;> rfl

/-- A successful dispatch preserves the global and cell bindings of the
context, and never introduces Python `None` into the reference list. -/
theorem dispatch_ok_inv (w : World) (opn : Opname) (a : String) (s s2 : WalkState)
    (h : dispatch w opn a s = .ok s2) :
    s2.ctx.globals = s.ctx.globals ∧ s2.ctx.cells = s.ctx.cells ∧
      (PyVal.none ∉ s.refs → PyVal.none ∉ s2.refs) := by
  cases opn <;> simp only [dispatch] at h <;>
    (repeat' split at h) <;>
    simp only [Except.ok.injEq, reduceCtorEq] at h <;>
    subst h <;>
    simp_all [set_tos, otherDefault] <;>
    (repeat' split) <;>
    simp_all <;>
    (intro hmem hbad; exact (by assumption : ¬ _ = PyVal.none) hbad.symm)

/-- One step of the walk preserves the global and cell bindings and never
introduces Python `None` into the reference list. -/
theorem step_inv (w : World) (cd : PyCode) (s : WalkState) (op : Instr) :
    (step w cd s op).ctx.globals = s.ctx.globals ∧
    (step w cd s op).ctx.cells = s.ctx.cells ∧
    (PyVal.none ∉ s.refs → PyVal.none ∉ (step w cd s op).refs) := by
  unfold step
  cases hd : dispatch w op.opname op.argval (updLine op.starts_line s) with
  | ok s2 =>
      have h1 := dispatch_ok_inv _ _ _ _ _ hd
      rw [updLine_ctx, updLine_refs] at h1
      exact h1
  | error e =>
      simp [updLine_ctx, updLine_refs]

/-- The whole fold preserves the global and cell bindings and never
introduces Python `None` into the reference list. -/
theorem walk_inv (w : World) (cd : PyCode) : ∀ (ops : List Instr) (s : WalkState),
    (ops.foldl (step w cd) s).ctx.globals = s.ctx.globals ∧
    (ops.foldl (step w cd) s).ctx.cells = s.ctx.cells ∧
    (PyVal.none ∉ s.refs → PyVal.none ∉ (ops.foldl (step w cd) s).refs) := by
  intro ops
  induction ops with
  | nil => intro s; exact ⟨rfl, rfl, fun h => h⟩
  | cons op rest ih =>
      intro s
      have hs := step_inv w cd s op
      have hr := ih (step w cd s op)
      simp only [List.foldl_cons]
      exact ⟨hr.1.trans hs.1, hr.2.1.trans hs.2.1, fun h => hr.2.2 (hs.2.2 h)⟩

/-- When the dispatch of an instruction raises, the step reduces to the
line-updated state with exactly one diagnostic appended. -/
theorem step_error_eq (w : World) (cd : PyCode) (s : WalkState) (op : Instr) (e : PyExc)
    (h : dispatch w op.opname op.argval (updLine op.starts_line s) = .error e) :
    step w cd s op = { updLine op.starts_line s with
      diags := (updLine op.starts_line s).diags ++
        [⟨cd.co_filename, cd.co_name, (updLine op.starts_line s).lineno, e⟩] } := by
  unfold step
  rw [h]

/-! Claim theorems. -/

/-- C1: for every instruction stream and every context, an exception raised
while dispatching an instruction is never propagated: the walk records
exactly one non-fatal diagnostic for the failing instruction, leaves the
references accumulated so far intact, and continues with the remaining
instructions, so the fold always completes and returns a (possibly partial)
reference list. -/
theorem c1_walk_never_propagates (w : World) (cd : PyCode) (op : Instr)
    (rest : List Instr) (s : WalkState) (e : PyExc)
    (h : dispatch w op.opname op.argval (updLine op.starts_line s) = .error e) :
    List.foldl (step w cd) s (op :: rest) = List.foldl (step w cd) (step w cd s op) rest
    ∧ (step w cd s op).diags
        = s.diags ++ [⟨cd.co_filename, cd.co_name, (updLine op.starts_line s).lineno, e⟩]
    ∧ (step w cd s op).refs = s.refs := by
  refine ⟨List.foldl_cons _ _, ?_, ?_⟩
  · rw [step_error_eq w cd s op e h]
    rw [updLine_diags]
  · rw [step_error_eq w cd s op e h]
    exact updLine_refs _ _

/-- C1 witness: the failing cell load of `c1wCode` records one diagnostic
and the walk continues. -/
theorem c1_witness :
    List.foldl (step noMagicWorld c1wCode) (initState emptyCtx)
        [⟨.LOAD_DEREF, "x", Option.none⟩]
      = List.foldl (step noMagicWorld c1wCode)
          (step noMagicWorld c1wCode (initState emptyCtx) ⟨.LOAD_DEREF, "x", Option.none⟩) []
    ∧ (step noMagicWorld c1wCode (initState emptyCtx) ⟨.LOAD_DEREF, "x", Option.none⟩).diags
        = [⟨"w.py", "g", Option.none, .keyError "x"⟩]
    ∧ (step noMagicWorld c1wCode (initState emptyCtx) ⟨.LOAD_DEREF, "x", Option.none⟩).refs
        = [] :=
  c1_walk_never_propagates noMagicWorld c1wCode ⟨.LOAD_DEREF, "x", Option.none⟩ []
    (initState emptyCtx) (.keyError "x") rfl

/-- C3 counterexample: a stream whose final instruction is a Load-global
that resolves `n` to 42 leaves 42 pending in the register, yet
`get_referenced_objects` returns the empty list — the pending value is not
committed, contrary to the claim. -/
theorem c3_counterexample :
    (runWalk noMagicWorld c3Code c3Ctx).tos = PyVal.int 42
    ∧ get_referenced_objects noMagicWorld c3Code c3Ctx = [] :=
  ⟨rfl, rfl⟩

/-- C3 amended: a symbolic value still pending in the register after the
last instruction is discarded, not committed: `get_referenced_objects`
returns exactly the references committed during dispatch, and the output
demanded by the specification's final-commit rule (`specFinalCommit`)
differs from it by exactly that pending value. -/
theorem c3_no_final_commit (w : World) (cd : PyCode) (ctx : CodeContext) :
    get_referenced_objects w cd ctx = (runWalk w cd ctx).refs
    ∧ specFinalCommit (runWalk w cd ctx)
        = get_referenced_objects w cd ctx
          ++ (if (runWalk w cd ctx).tos = PyVal.none then []
              else [(runWalk w cd ctx).tos]) := by
  constructor
  · rfl
  · unfold specFinalCommit get_referenced_objects
    split <;> simp

/-- C4 counterexample: after the attribute lookup of `a` on the object
tagged 0 raises (one diagnostic is recorded, with the line marker 5), the
register is not cleared: the stale object is committed to the output by the
next instruction, so the walk returns `[obj 0]` where the claim demands the
failed reference to drop out. -/
theorem c4_counterexample :
    noMagicWorld.getattr (PyVal.obj 0) "a" = Option.none
    ∧ (runWalk noMagicWorld c4Code c4Ctx).diags
        = [⟨"f.py", "f", some 5, .attributeError "a"⟩]
    ∧ get_referenced_objects noMagicWorld c4Code c4Ctx = [PyVal.obj 0] :=
  ⟨rfl, rfl, rfl⟩

/-- C4 amended: whenever the dispatch of an instruction raises, the walker
leaves the register unchanged — it does not clear it to Empty — and also
leaves the references and the context unchanged, recording exactly one
diagnostic; the pending value can therefore be carried into and committed
by subsequent instructions. -/
theorem c4_exception_keeps_tos (w : World) (cd : PyCode) (s : WalkState)
    (op : Instr) (e : PyExc)
    (h : dispatch w op.opname op.argval (updLine op.starts_line s) = .error e) :
    (step w cd s op).tos = s.tos
    ∧ (step w cd s op).refs = s.refs
    ∧ (step w cd s op).ctx = s.ctx
    ∧ (step w cd s op).diags
        = s.diags ++ [⟨cd.co_filename, cd.co_name, (updLine op.starts_line s).lineno, e⟩] := by
  rw [step_error_eq w cd s op e h]
  exact ⟨updLine_tos _ _, updLine_refs _ _, updLine_ctx _ _, by rw [updLine_diags]⟩

/-- C4 witness: a failing attribute lookup on a state holding the object
tagged 0 keeps that object in the register. -/
theorem c4_witness :
    (step noMagicWorld c4Code c4wState ⟨.LOAD_ATTR, "a", some 5⟩).tos = PyVal.obj 0
    ∧ (step noMagicWorld c4Code c4wState ⟨.LOAD_ATTR, "a", some 5⟩).refs = []
    ∧ (step noMagicWorld c4Code c4wState ⟨.LOAD_ATTR, "a", some 5⟩).ctx = emptyCtx
    ∧ (step noMagicWorld c4Code c4wState ⟨.LOAD_ATTR, "a", some 5⟩).diags
        = [⟨"f.py", "f", some 5, .attributeError "a"⟩] :=
  c4_exception_keeps_tos noMagicWorld c4Code c4wState ⟨.LOAD_ATTR, "a", some 5⟩
    (.attributeError "a") rfl

/-- C5 counterexample: a Store-local of `x` processed while the register
holds the non-Empty concrete value 0 does not store it into the local
bindings: because 0 is falsy, the instruction falls through to the default
branch, which commits 0 to the output and stores nothing — contrary to the
claim, which demands the binding `x = 0` and an unchanged output. -/
theorem c5_counterexample :
    get_referenced_objects noMagicWorld c5Code c5Ctx = [PyVal.int 0]
    ∧ (runWalk noMagicWorld c5Code c5Ctx).ctx.varnames = []
    ∧ (runWalk noMagicWorld c5Code c5Ctx).tos = PyVal.none :=
  ⟨rfl, rfl, rfl⟩

/-- C5 amended: a Store-local stores the pending value into the local
bindings and clears the register only when that value is truthy; a falsy
but non-Empty pending value (0, False, the empty string) is instead
committed to the output by the default branch, with the local bindings
untouched. -/
theorem c5_store_truthiness (w : World) (cd : PyCode) (s : WalkState)
    (name : String) (sl : Option Nat) :
    (s.tos.truthy = true →
       step w cd s ⟨.STORE_FAST, name, sl⟩
         = { updLine sl s with
             ctx := { s.ctx with varnames := dinsert s.ctx.varnames name s.tos },
             tos := PyVal.none })
    ∧ (s.tos.truthy = false → s.tos ≠ PyVal.none →
       step w cd s ⟨.STORE_FAST, name, sl⟩
         = { updLine sl s with refs := s.refs ++ [s.tos], tos := PyVal.none }) := by
  have h1 : (updLine sl s).tos = s.tos := updLine_tos sl s
  have h2 : (updLine sl s).ctx = s.ctx := updLine_ctx sl s
  have h3 : (updLine sl s).refs = s.refs := updLine_refs sl s
  constructor
  · intro ht
    unfold step dispatch
    simp only [h1, h2, h3, ht, if_true]
  · intro hf h0
    unfold step dispatch
    simp only [h1, h2, h3, hf, Bool.false_eq_true, if_false, otherDefault, h0, ite_false]

/-- C5 witness: storing a truthy 5 binds `x` and clears the register, while
storing a falsy 0 commits 0 to the output instead. -/
theorem c5_witness :
    step noMagicWorld c5Code c5wTruthy ⟨.STORE_FAST, "x", Option.none⟩
      = { tos := PyVal.none, lineno := Option.none, refs := [],
          ctx := ⟨[], [], [("x", PyVal.int 5)]⟩, diags := [] }
    ∧ step noMagicWorld c5Code c5wFalsy ⟨.STORE_FAST, "x", Option.none⟩
      = { tos := PyVal.none, lineno := Option.none, refs := [PyVal.int 0],
          ctx := ⟨[], [], []⟩, diags := [] } :=
  ⟨(c5_store_truthiness noMagicWorld c5Code c5wTruthy "x" Option.none).1 rfl,
   (c5_store_truthiness noMagicWorld c5Code c5wFalsy "x" Option.none).2 rfl (by decide)⟩

/-- C7: a walk never changes the global or cell bindings of its context;
only the local bindings component can change, and the returned value of
`get_referenced_objects` is the reference list alone, so the final local
bindings are discarded with the rest of the walk state. -/
theorem c7_walk_read_only (w : World) (cd : PyCode) (ctx : CodeContext) :
    (runWalk w cd ctx).ctx.globals = ctx.globals
    ∧ (runWalk w cd ctx).ctx.cells = ctx.cells
    ∧ get_referenced_objects w cd ctx = (runWalk w cd ctx).refs := by
  have h := walk_inv w cd cd.instructions (initState ctx)
  exact ⟨h.1, h.2.1, rfl⟩

/-- C8: extraction is deterministic: two walks over the same code with
contexts holding equal global, cell and local bindings return identical
ordered reference lists, and two context constructions from callables with
identical input data return identical results. -/
theorem c8_deterministic (w : World) (cd : PyCode) (ctx1 ctx2 : CodeContext)
    (hg : ctx1.globals = ctx2.globals) (hc : ctx1.cells = ctx2.cells)
    (hv : ctx1.varnames = ctx2.varnames) (f1 f2 : PyFunc)
    (e1 : f1.co_cellvars = f2.co_cellvars) (e2 : f1.co_freevars = f2.co_freevars)
    (e3 : f1.closure = f2.closure) (e4 : f1.globals = f2.globals)
    (e5 : f1.is_method = f2.is_method) (e6 : f1.self_val = f2.self_val) :
    get_referenced_objects w cd ctx1 = get_referenced_objects w cd ctx2
    ∧ get_code_context f1 = get_code_context f2 := by
  have hctx : ctx1 = ctx2 := by cases ctx1; cases ctx2; simp_all
  have hf : f1 = f2 := by cases f1; cases f2; simp_all
  rw [hctx, hf]
  exact ⟨rfl, rfl⟩

/-- C8 witness: determinism applied at a concrete code, context and
callable. -/
theorem c8_witness :
    get_referenced_objects noMagicWorld c8Code c8Ctx
      = get_referenced_objects noMagicWorld c8Code c8Ctx
    ∧ get_code_context c8Func = get_code_context c8Func :=
  c8_deterministic noMagicWorld c8Code c8Ctx c8Ctx rfl rfl rfl c8Func c8Func
    rfl rfl rfl rfl rfl rfl

/-- C10: a resolved value of Python `None` is indistinguishable from the
empty register: no walk ever returns a reference list containing `None`,
and after a Load-global, Load-captured-variable or Load-local instruction
that resolves its name to `None`, an immediately following Load-attribute
appends the bare attribute name, exactly as if no receiver were pending. -/
theorem c10_none_invisible :
    (∀ (w : World) (cd : PyCode) (ctx : CodeContext),
       PyVal.none ∉ get_referenced_objects w cd ctx)
    ∧ (∀ (w : World) (n a fn nm : String) (ctx : CodeContext),
         dlookup ctx.globals n = some PyVal.none →
         get_referenced_objects w
           ⟨[⟨.LOAD_GLOBAL, n, Option.none⟩, ⟨.LOAD_ATTR, a, Option.none⟩], fn, nm⟩ ctx
           = [PyVal.str a])
    ∧ (∀ (w : World) (n a fn nm : String) (ctx : CodeContext),
         dlookup ctx.cells n = some PyVal.none →
         get_referenced_objects w
           ⟨[⟨.LOAD_DEREF, n, Option.none⟩, ⟨.LOAD_ATTR, a, Option.none⟩], fn, nm⟩ ctx
           = [PyVal.str a])
    ∧ (∀ (w : World) (n a fn nm : String) (ctx : CodeContext),
         dlookup ctx.varnames n = some PyVal.none →
         get_referenced_objects w
           ⟨[⟨.LOAD_FAST, n, Option.none⟩, ⟨.LOAD_ATTR, a, Option.none⟩], fn, nm⟩ ctx
           = [PyVal.str a]) := by
  refine ⟨?_, ?_, ?_, ?_⟩
  · intro w cd ctx
    exact (walk_inv w cd cd.instructions (initState ctx)).2.2 (by simp [initState])
  · intro w n a fn nm ctx h
    simp [get_referenced_objects, runWalk, step, dispatch, updLine, set_tos, initState, h]
  · intro w n a fn nm ctx h
    simp [get_referenced_objects, runWalk, step, dispatch, updLine, set_tos, initState, h]
  · intro w n a fn nm ctx h
    simp [get_referenced_objects, runWalk, step, dispatch, updLine, set_tos, initState, h]

/-- C10 witness: with `n` bound to `None` as a global, a captured cell
variable and a local respectively, each load followed by Load-attribute(a)
yields the single bare entry `a`, and `None` is absent from such output. -/
theorem c10_witness :
    PyVal.none ∉ get_referenced_objects noMagicWorld c10Code c10Ctx
    ∧ get_referenced_objects noMagicWorld
        ⟨[⟨.LOAD_GLOBAL, "n", Option.none⟩, ⟨.LOAD_ATTR, "a", Option.none⟩], "f.py", "f"⟩
        c10Ctx
      = [PyVal.str "a"]
    ∧ get_referenced_objects noMagicWorld
        ⟨[⟨.LOAD_DEREF, "n", Option.none⟩, ⟨.LOAD_ATTR, "a", Option.none⟩], "f.py", "f"⟩
        c10CellCtx
      = [PyVal.str "a"]
    ∧ get_referenced_objects noMagicWorld
        ⟨[⟨.LOAD_FAST, "n", Option.none⟩, ⟨.LOAD_ATTR, "a", Option.none⟩], "f.py", "f"⟩
        c10LocalCtx
      = [PyVal.str "a"] :=
  ⟨c10_none_invisible.1 noMagicWorld c10Code c10Ctx,
   c10_none_invisible.2.1 noMagicWorld "n" "a" "f.py" "f" c10Ctx rfl,
   c10_none_invisible.2.2.1 noMagicWorld "n" "a" "f.py" "f" c10CellCtx rfl,
   c10_none_invisible.2.2.2 noMagicWorld "n" "a" "f.py" "f" c10LocalCtx rfl⟩

/-- C2 counterexample: with global `n` bound to the concrete string value
`m`, and a runtime in which the attribute lookup of `a` on that string
succeeds and returns the object tagged 7, the walker does not attempt the
lookup: it extends the string by concatenation, so the committed entry is
the string `m.a` and not the lookup result — contrary to the claim's
Concrete case. -/
theorem c2_counterexample :
    dlookup c2Ctx.globals "n" = some (PyVal.str "m")
    ∧ lookupWorld.getattr (PyVal.str "m") "a" = some (PyVal.obj 7)
    ∧ get_referenced_objects lookupWorld c2Code c2Ctx = [PyVal.str "m.a"]
    ∧ PyVal.str "m.a" ≠ PyVal.obj 7 :=
  ⟨rfl, rfl, rfl, by decide⟩

/-- C2 amended: for a Load-attribute, Load-method or Import-member
instruction with operand `a`: an empty register appends the bare string `a`
to the output and stays empty; a register holding any string — whether it
arose as an unresolved partial name or as a concrete string value — becomes
the string extended with `"." ++ a`, with nothing appended; only a register
holding a non-string, non-`None` value leads to an attribute lookup, whose
successful result becomes the new register value. -/
theorem c2_attr_dispatch (w : World) (opn : Opname) (a : String) (s : WalkState)
    (hop : opn = .LOAD_ATTR ∨ opn = .LOAD_METHOD ∨ opn = .IMPORT_FROM) :
    (s.tos = PyVal.none →
       dispatch w opn a s = .ok { s with refs := s.refs ++ [.str a] })
    ∧ (∀ t, s.tos = PyVal.str t →
       dispatch w opn a s = .ok { s with tos := .str (t ++ "." ++ a) })
    ∧ (∀ r, (∀ t, s.tos ≠ PyVal.str t) → s.tos ≠ PyVal.none →
       w.getattr s.tos a = some r →
       dispatch w opn a s = .ok { s with tos := r }) := by
  rcases hop with h | h | h <;> subst h <;>
  refine ⟨fun h0 => by simp [dispatch, h0], fun t ht => by simp [dispatch, ht],
          fun r hns h0 hg => ?_⟩ <;>
  cases hv : s.tos with
  | none => exact absurd hv h0
  | str t => exact absurd hv (hns t)
  | bool b => rw [hv] at hg; simp [dispatch, hv, hg]
  | int n1 => rw [hv] at hg; simp [dispatch, hv, hg]
  | obj k => rw [hv] at hg; simp [dispatch, hv, hg]

/-- C2 witness: the Empty case applied at a concrete state. -/
theorem c2_witness :
    dispatch noMagicWorld .LOAD_ATTR "a" (initState emptyCtx)
      = .ok { initState emptyCtx with refs := [PyVal.str "a"] } :=
  (c2_attr_dispatch noMagicWorld .LOAD_ATTR "a" (initState emptyCtx) (Or.inl rfl)).1 rfl

/-- C6: the context builder pairs each external-capture name, in declared
order, with the closure cell value at the same position when the two lists
have equal length, and fails with a fatal, propagated assertion error—
before any instruction is processed — whenever the callable declares
external captures and the two lists differ in length. -/
theorem c6_context_builder (f : PyFunc) (cl : List PyVal) (h : f.closure = some cl) :
    (cl.length = f.co_freevars.length →
       get_code_context f = .ok
         { globals := f.globals,
           cells := (f.co_freevars.zip cl).foldl (fun d p => dinsert d p.1 p.2)
                      (seedCells f.co_cellvars),
           varnames := if f.is_method then [("self", f.self_val)] else [] })
    ∧ (f.co_freevars ≠ [] → cl.length ≠ f.co_freevars.length →
       get_code_context f = .error .assertionError) := by
  constructor
  · intro hlen
    unfold get_code_context
    rw [h]
    cases hfv : f.co_freevars with
    | nil => simp [hfv]
    | cons x xs =>
        have hlen2 : cl.length = (x :: xs).length := by rw [← hfv]; exact hlen
        simp [hfv, ← hlen2]
  · intro hne hlen
    unfold get_code_context
    rw [h]
    cases hfv : f.co_freevars with
    | nil => exact absurd hfv hne
    | cons x xs =>
        have hx : ¬((x :: xs).length = cl.length) := by
          rw [← hfv]
          intro hh
          exact hlen hh.symm
        simp only [List.length_cons] at hx
        simp [hfv, hx]

/-- C6 witness: a matching closure is paired positionally after the
internal-capture placeholders, and a two-name/one-cell mismatch fails. -/
theorem c6_witness :
    get_code_context c6FuncOk
      = .ok ⟨[("g", PyVal.int 9)],
             [("c", PyVal.str "c"), ("u", PyVal.int 1), ("v", PyVal.int 2)], []⟩
    ∧ get_code_context c6FuncBad = .error .assertionError :=
  ⟨(c6_context_builder c6FuncOk [PyVal.int 1, PyVal.int 2] rfl).1 rfl,
   (c6_context_builder c6FuncBad [PyVal.int 1] rfl).2 (by decide) (by decide)⟩

/-- C9 counterexample: with global `n` bound to the string `m` and a
runtime in which the attribute lookup would succeed, the two-instruction
stream Load-global(n); Load-attribute(a) returns the empty output: the
concatenated name `m.a` is only pending in the register when the stream
ends, so no output entry is produced at all. -/
theorem c9_counterexample :
    dlookup c9Ctx.globals "n" = some (PyVal.str "m")
    ∧ get_referenced_objects lookupWorld c9Code c9Ctx = []
    ∧ (runWalk lookupWorld c9Code c9Ctx).tos = PyVal.str "m.a" :=
  ⟨rfl, rfl, rfl⟩

/-- C9 amended: for every runtime and every context whose globals map `n`
to a string value `s`, the sequence Load-global(n); Load-attribute(a),
followed by any other committing instruction, produces the single output
entry `s ++ "." ++ a` by string concatenation — independent of what the
attribute lookup on `s` would return, since the result holds for every
runtime. -/
theorem c9_string_concat (w : World) (n a s fn nm oth : String) (ctx : CodeContext)
    (h : dlookup ctx.globals n = some (PyVal.str s)) :
    get_referenced_objects w
      ⟨[⟨.LOAD_GLOBAL, n, Option.none⟩, ⟨.LOAD_ATTR, a, Option.none⟩,
        ⟨.other oth, "", Option.none⟩], fn, nm⟩ ctx
      = [PyVal.str (s ++ "." ++ a)] := by
  simp [get_referenced_objects, runWalk, step, dispatch, updLine, set_tos,
        otherDefault, initState, h]

/-- C9 witness: the concatenation result on the concrete context binding
`n` to the string `m`. -/
theorem c9_witness :
    get_referenced_objects lookupWorld
      ⟨[⟨.LOAD_GLOBAL, "n", Option.none⟩, ⟨.LOAD_ATTR, "a", Option.none⟩,
        ⟨.other "RETURN_VALUE", "", Option.none⟩], "f.py", "f"⟩ c9Ctx
      = [PyVal.str "m.a"] :=
  c9_string_concat lookupWorld "n" "a" "m" "f.py" "f" "RETURN_VALUE" c9Ctx rfl

end Bionic
